import Mathlib

/-!
# MGKEIT Pair Alert — Authentication & Session Core, shallow embedding

Lean model of the bot's authentication core:

* `src/bot/utils/password_manager.py` — password validation, change with
  history-based reuse prevention, default-password seeding;
* `src/bot/utils/two_fa.py` — TOTP verification wrapper, backup-code
  generation / storage / single-use verification;
* `src/bot/utils/session_manager.py` — sliding-window session tracking;
* `src/bot/handlers/auth.py`, `src/bot/handlers/two_fa.py` — the
  conversation handlers (state machines) for authentication, password
  change and 2FA enrollment / disable.

Modelling conventions:

* Python `str` values are modelled as `List Char` (Python strings are
  sequences of code points).  `len` is `List.length`, slicing is
  `take`/`drop`, single-character `str.replace(c, '')` is `filter`,
  `str.upper()` is `Char.toUpper` mapped over the string (exact for the
  ASCII data handled here).
* The regex character-class searches `[a-z]`, `[A-Z]`, `\d` are
  modelled as `List.any` with the corresponding ASCII predicate (`\d`
  is modelled as ASCII digits; a non-ASCII digit would in any case be
  rejected by the allowed-characters check, so boolean outcomes agree).
* `re.match(r"^[allowed]+$", s)` keeps Python semantics: `$` matches at
  the end of the string *or just before a trailing newline*, so the
  pattern also accepts `body ++ "\n"` for non-empty all-allowed `body`.
* External cryptographic primitives (bcrypt via `hash_password` /
  `verify_password`, SHA-256 via `hash_backup_code`, pyotp's
  `TOTP.verify`) are library calls, not code of this repository; they
  are passed in as explicit function parameters (`hashF`, `verifyF`,
  `totpVerify`) so every repository-level branch is modelled exactly.
* JSON round-trips of the stored history / backup-code lists
  (`json.loads` / `json.dumps` of a list of strings) are modelled as
  the identity on `List (List Char)`; the well-formed rows written by
  this code always parse.
* Database rows are a `UserRow` structure; a handler is a pure function
  from its inputs (row, conversation-FSM state, message text, and the
  fresh random values the source draws) to the updated row and state.
-/

/-! ## Python string primitives -/

/-- Python `str.strip()` whitespace class (ASCII part). -/
def pyIsSpace (c : Char) : Bool :=
  c = ' ' || c = '\t' || c = '\n' || c = '\r' || c = '\x0b' || c = '\x0c'

/-- Python `str.strip()`: drop leading and trailing whitespace. -/
def pyStrip (s : List Char) : List Char :=
  ((s.dropWhile pyIsSpace).reverse.dropWhile pyIsSpace).reverse

/-- Python `str.upper()` on one character (ASCII). -/
def pyUpper (c : Char) : Char := c.toUpper

/-! ## Credential-store row (`users` table columns used by the core) -/

/-- One row of the `users` table, restricted to the columns the
authentication core reads and writes.  `password_history` and
`backup_codes` are stored in the database as JSON arrays of strings;
they are modelled directly as lists.  `NULL` text columns are modelled
as the empty string (the source normalizes them with `or ''` / `or 0` /
`or "[]"` at every read). -/
structure UserRow where
  hashed_password : List Char
  password_changed : Bool
  password_history : List (List Char)
  two_fa_enabled : Bool
  two_fa_secret : List Char
  backup_codes : List (List Char)
  last_auth_time : Int
deriving Repr, DecidableEq

/-! ## Password Policy Engine (`bot/utils/password_manager.py`) -/

def MIN_LENGTH : Nat := 8

def MAX_LENGTH : Nat := 128

/-- The fixed punctuation allow-list `ALLOWED_SYMBOLS` of
`password_manager.py` (the raw string `~!?@#$%^&*_\-+\(\)\[\]{}<>/\\|\"'.,;:`,
read as a regex character class). -/
def ALLOWED_SYMBOLS : List Char :=
  ['~', '!', '?', '@', '#', '$', '%', '^', '&', '*', '_', '-', '+',
   '(', ')', '[', ']', '\x7b', '\x7d', '<', '>', '/', '\\', '|', '"',
   '\'', '.', ',', ';', ':']

/-- Membership in the regex class `[a-zA-Z0-9{ALLOWED_SYMBOLS}]`. -/
def allowedChar (c : Char) : Bool :=
  ('a' ≤ c && c ≤ 'z') || ('A' ≤ c && c ≤ 'Z') || ('0' ≤ c && c ≤ '9')
    || c ∈ ALLOWED_SYMBOLS

/-- Python `re.match(r"^[C]+$", s)` for a character class `C` that does
not contain a newline: the match succeeds when every character of the
(non-empty) string is in the class, or when the string is a non-empty
all-in-class body followed by a single trailing newline (Python `$`
also matches just before a final newline). -/
def pyMatchClassPlusDollar (cls : Char → Bool) (s : List Char) : Bool :=
  (!s.isEmpty && s.all cls)
    || (s.getLast? = some '\n' && !s.dropLast.isEmpty && s.dropLast.all cls)

/-- `validate_password` (`password_manager.py`, lines 28-60): checks in
source order and returns `(is_valid, error_message)`. -/
def validate_password (password : List Char) : Bool × String :=
  if password.isEmpty then
    (false, "Password cannot be empty")
  else if password.length < MIN_LENGTH then
    (false, "Пароль должен быть минимум 8 символов")
  else if password.length > MAX_LENGTH then
    (false, "Пароль должен быть не более 128 символов")
  else if ' ' ∈ password then
    (false, "Пароль не может содержать пробелы")
  else if !password.any (fun c => 'a' ≤ c && c ≤ 'z') then
    (false, "Пароль должен содержать хотя бы одну строчную букву")
  else if !password.any (fun c => 'A' ≤ c && c ≤ 'Z') then
    (false, "Пароль должен содержать хотя бы одну заглавную букву")
  else if !password.any (fun c => '0' ≤ c && c ≤ '9') then
    (false, "Пароль должен содержать хотя бы одну цифру")
  else if !pyMatchClassPlusDollar allowedChar password then
    (false, "Пароль содержит недопустимые символы")
  else
    (true, "")

/-- The fixed per-role default-password mapping `DEFAULT_PASSWORDS`. -/
def DEFAULT_PASSWORDS : List (String × List Char) :=
  [("admin", ['a', 'd', 'm', 'i', 'n']),
   ("curator", ['c', 'u', 'r', 'a', 't', 'o', 'r'])]

/-- `set_default_password` (`password_manager.py`, lines 76-93): when the
new role has a default password, overwrite the hash, clear
`password_changed` and reset `password_history` to the empty string
(which later reads parse as the empty list); otherwise do nothing.
`hashF` stands for the bcrypt `hash_password` library call. -/
def set_default_password (hashF : List Char → List Char) (role : String)
    (row : UserRow) : UserRow :=
  match DEFAULT_PASSWORDS.find? (fun p => p.1 = role) with
  | none => row
  | some p =>
    { row with hashed_password := hashF p.2, password_changed := false,
               password_history := [] }

/-- Python `history[-8:]`: the last (at most) 8 elements. -/
def lastTake (n : Nat) (l : List α) : List α :=
  l.drop (l.length - n)

/-- Success message of `change_password`. -/
def changeOkMsg : String := "Пароль успешно изменен"

/-- The `ReusedPassword` message of `change_password`. -/
def reusedMsg : String := "Новый пароль не может совпадать с последними 8 паролями"

/-- `change_password` (`password_manager.py`, lines 115-169) for an
existing row: validate; reject when the new password verifies against
one of the last 8 history hashes; otherwise push the previous current
hash (when non-empty) onto the history, cap the history at its last 8
entries, and commit the new hash with `password_changed = 1`.  Returns
the `(success, message)` pair together with the row as left in the
database (unchanged on failure).  `hashF` / `verifyF` stand for the
bcrypt `hash_password` / `verify_password` library calls. -/
def change_password (hashF : List Char → List Char)
    (verifyF : List Char → List Char → Bool)
    (row : UserRow) (new_password : List Char) : (Bool × String) × UserRow :=
  let v := validate_password new_password
  if !v.1 then ((false, v.2), row)
  else
    let history := row.password_history
    let new_hashed := hashF new_password
    if (lastTake 8 history).any (fun old_hash => verifyF new_password old_hash) then
      ((false, reusedMsg), row)
    else
      let history1 :=
        if !row.hashed_password.isEmpty then history ++ [row.hashed_password]
        else history
      let history2 := lastTake 8 history1
      ((true, changeOkMsg),
       { row with hashed_password := new_hashed, password_changed := true,
                  password_history := history2 })

/-! ## Session Tracker (`bot/utils/session_manager.py`) -/

def SESSION_TIMEOUT : Int := 120

/-- `authenticate_user` (lines 15-22): set `last_auth_time = now`. -/
def authenticate_user (now : Int) (row : UserRow) : UserRow :=
  { row with last_auth_time := now }

/-- `is_session_active` (lines 30-50): `False` for a missing row,
otherwise `now - last_auth < SESSION_TIMEOUT` (a `NULL` timestamp reads
as `0` via `row[0] or 0`; there is no `last_auth != 0` test). -/
def is_session_active (row : Option UserRow) (now : Int) : Bool :=
  match row with
  | none => false
  | some r => now - r.last_auth_time < SESSION_TIMEOUT

/-- `invalidate_session` (lines 53-60): set `last_auth_time = 0`. -/
def invalidate_session (row : UserRow) : UserRow :=
  { row with last_auth_time := 0 }

/-! ## Two-Factor Engine (`bot/utils/two_fa.py`) -/

/-- `verify_totp_code` (`two_fa.py`, lines 56-71): the repository-level
precheck — empty, non-digit or non-6-character codes are rejected
without consulting the time-window algorithm — followed by pyotp's
`TOTP(secret).verify(code, valid_window=1)`, modelled by the parameter
`totpVerify`. -/
def verify_totp_code (totpVerify : List Char → List Char → Bool)
    (secret code : List Char) : Bool :=
  if code.isEmpty || !code.all Char.isDigit || code.length ≠ 6 then false
  else totpVerify secret code

/-- The character set `secrets.choice` draws from in
`generate_backup_codes`. -/
def BACKUP_ALPHABET : List Char :=
  ['A', 'B', 'C', 'D', 'E', 'F', 'G', 'H', 'I', 'J', 'K', 'L', 'M',
   'N', 'O', 'P', 'Q', 'R', 'S', 'T', 'U', 'V', 'W', 'X', 'Y', 'Z',
   '0', '1', '2', '3', '4', '5', '6', '7', '8', '9']

/-- The `f"{code[:4]}-{code[4:]}"` formatting step of
`generate_backup_codes`. -/
def formatBackupCode (code : List Char) : List Char :=
  code.take 4 ++ '-' :: code.drop 4

/-- `generate_backup_codes` (`two_fa.py`, lines 74-90): each code is 8
characters drawn by `secrets.choice` from `BACKUP_ALPHABET` and then
formatted as `XXXX-XXXX`.  The random draws are made explicit: `raws`
is the list of 8-character samples (one entry per generated code, so
`raws.length` plays the role of `count`). -/
def generate_backup_codes (raws : List (List Char)) : List (List Char) :=
  raws.map formatBackupCode

/-- `store_backup_codes` (`two_fa.py`, lines 132-143): hash every code
(`hash_backup_code`, a SHA-256 library call modelled by `hashF`) and
serialize the list.  -/
def store_backup_codes (hashF : List Char → List Char)
    (codes : List (List Char)) : List (List Char) :=
  codes.map hashF

/-- Input normalization of `verify_backup_code` (`two_fa.py`, lines
116-120): remove spaces and dashes, uppercase, and when 8 characters
remain re-insert the dash at position 4. -/
def normalizeBackupCode (code : List Char) : List Char :=
  let n := ((code.filter (fun c => c ≠ ' ')).filter (fun c => c ≠ '-')).map pyUpper
  if n.length = 8 then n.take 4 ++ '-' :: n.drop 4 else n

/-- `verify_backup_code` (`two_fa.py`, lines 98-129): normalize, hash
(`hashF` models `hash_backup_code`), and look the hash up in the stored
list.  On a match the first occurrence is removed (Python
`list.remove`) and the updated list is returned; on no match the result
is `(False, None)` — no updated list is produced. -/
def verify_backup_code (hashF : List Char → List Char)
    (code : List Char) (hashed_codes : List (List Char)) :
    Bool × Option (List (List Char)) :=
  let code_hash := hashF (normalizeBackupCode code)
  if code_hash ∈ hashed_codes then
    (true, some (hashed_codes.erase code_hash))
  else
    (false, none)

/-! ## Conversation state machines (`bot/handlers/auth.py`,
`bot/handlers/two_fa.py`)

A handler receives the per-conversation aiogram FSM state (the `State`
plus the `state.update_data` payload), the message text and the user's
database row, and produces the updated row and FSM state.  Sent
messages are modelled only where a claim needs them (`require_authentication`). -/

/-- The aiogram conversation state, with the `state.update_data`
payload attached to the states that use it (`secret` during 2FA
enrollment, `new_password` during password change). -/
inductive FsmState where
  | idle
  | authWaitingPassword
  | authWaiting2faCode
  | authWaitingNewPassword
  | authWaitingConfirmPassword (new_password : List Char)
  | enable2faWaitingInitialCode (secret : List Char)
  | disable2faWaitingPassword
  | disable2faWaitingCode
  | changePwWaitingCurrentPassword
  | changePwWaitingNewPassword
  | changePwWaitingConfirmPassword (new_password : List Char)
  | changePwWaiting2faCode (new_password : List Char)
deriving Repr, DecidableEq

/-- The reserved cancel input (`"Отмена"`). -/
def cancelText : List Char := "Отмена".toList

/-- `require_authentication` (`auth.py`, lines 48-76): when not forcing
and the session is active, return `True` with no prompt and no state
change; otherwise set the FSM to `AuthStates.waiting_password`, send
the password prompt and return `False`.  The third component counts the
prompt messages sent. -/
def require_authentication (row : Option UserRow) (now : Int)
    (force : Bool) (fsm : FsmState) : Bool × FsmState × Nat :=
  if !force && is_session_active row now then (true, fsm, 0)
  else (false, .authWaitingPassword, 1)

/-- `msg_enable_2fa_start` (`two_fa.py`, lines 139-187): for a
privileged user without 2FA, generate a secret (`secret` models the
`generate_totp_secret()` draw), stash it in the FSM payload, enter
`waiting_initial_code` and display it (QR + plain text).  The database
row is never written.  Returns `(row, fsm, displayed secret)`. -/
def msg_enable_2fa_start (isPrivileged : Bool) (row : UserRow)
    (secret : List Char) (fsm : FsmState) :
    UserRow × FsmState × Option (List Char) :=
  if !isPrivileged then (row, fsm, none)
  else if row.two_fa_enabled then (row, fsm, none)
  else (row, .enable2faWaitingInitialCode secret, some secret)

/-- Code normalization shared by `process_enable_2fa_code` (`two_fa.py`,
line 200) and `process_password_change_2fa` (`auth.py`, line 596):
`text.strip().replace(' ', '').replace('-', '')`. -/
def stripCode (text : List Char) : List Char :=
  ((pyStrip text).filter (fun c => c ≠ ' ')).filter (fun c => c ≠ '-')

/-- `process_enable_2fa_code` (`two_fa.py`, lines 190-258), run in FSM
state `enable2faWaitingInitialCode secret`: on cancel clear the state;
on a missing (empty) stashed secret clear the state with an error; on a
failed `verify_totp_code` stay put; on success generate 10 backup codes
(`raws` models the random draws), hash and store them, and commit
`two_fa_enabled = 1`, the stashed secret, and `last_auth_time = 0` in
one update.  The plaintext codes are displayed once (third component). -/
def process_enable_2fa_code (totpVerify : List Char → List Char → Bool)
    (hashF : List Char → List Char) (row : UserRow) (secret : List Char)
    (text : List Char) (raws : List (List Char)) :
    UserRow × FsmState × Option (List (List Char)) :=
  if text = cancelText then (row, .idle, none)
  else
    let code := stripCode text
    if secret.isEmpty then (row, .idle, none)
    else if !verify_totp_code totpVerify secret code then
      (row, .enable2faWaitingInitialCode secret, none)
    else
      let backup_codes := generate_backup_codes raws
      let backup_codes_hashed := store_backup_codes hashF backup_codes
      ({ row with two_fa_enabled := true, two_fa_secret := secret,
                  backup_codes := backup_codes_hashed, last_auth_time := 0 },
       .idle, some backup_codes)

/-- `process_disable_2fa_code` (`two_fa.py`, lines 316-378), run in FSM
state `disable2faWaitingCode`: on cancel clear the state; otherwise try
the TOTP code (`text.strip()`), then a backup code; on failure stay
put; on success clear `two_fa_enabled`, `two_fa_secret`, `backup_codes`
and set `last_auth_time = 0` in one update. -/
def process_disable_2fa_code (totpVerify : List Char → List Char → Bool)
    (hashF : List Char → List Char) (row : UserRow) (text : List Char) :
    UserRow × FsmState :=
  if text = cancelText then (row, .idle)
  else
    let code := pyStrip text
    let isValidTotp := verify_totp_code totpVerify row.two_fa_secret code
    let isValid :=
      if !isValidTotp then (verify_backup_code hashF code row.backup_codes).1
      else isValidTotp
    if !isValid then (row, .disable2faWaitingCode)
    else
      ({ row with two_fa_enabled := false, two_fa_secret := [],
                  backup_codes := [], last_auth_time := 0 },
       .idle)

/-- An uncaught Python exception escaping a handler. -/
inductive PyErr where
  | uncaughtException
deriving Repr, DecidableEq

/-- `process_password_change_2fa` (`auth.py`, lines 578-659), run in FSM
state `changePwWaiting2faCode new_password`: on cancel clear the state;
on missing 2FA data clear with an error message; otherwise try the TOTP
code first.  When the TOTP check fails, the source executes
`await verify_backup_code(user_id, code)` — the arguments are swapped
(the integer `user_id` is passed as the code and the entered code as
the stored-JSON string) and `verify_backup_code` is a plain synchronous
function, so `await` is applied to its tuple result (or, when the
entered code happens to parse as JSON, `int.replace` is reached): in
either case an exception is raised and escapes the handler, modelled by
`Except.error`. -/
def process_password_change_2fa (totpVerify : List Char → List Char → Bool)
    (row : UserRow) (new_password : List Char) (text : List Char)
    (hashF : List Char → List Char)
    (verifyF : List Char → List Char → Bool) :
    Except PyErr (UserRow × FsmState) :=
  if text = cancelText then .ok (row, .idle)
  else
    let code := stripCode text
    if row.two_fa_secret.isEmpty then .ok (row, .idle)
    else
      let isValidTotp := verify_totp_code totpVerify row.two_fa_secret code
      if !isValidTotp then .error .uncaughtException
      else
        let r := change_password hashF verifyF row new_password
        if !r.1.1 then .ok (r.2, .changePwWaitingNewPassword)
        else .ok (r.2, .idle)

/-! ## Concrete instances used by witnesses and counterexamples

`hashL` / `verifyL` instantiate the abstract bcrypt parameters with a
deterministic tag-and-compare pair satisfying `verifyL p (hashL p) = true`;
`hashId` instantiates the abstract SHA-256 parameter with the identity
(any concrete function works for evaluating the repository-level logic). -/

def hashL (p : List Char) : List Char := 'H' :: p

def verifyL (p h : List Char) : Bool := h = 'H' :: p

def hashId (l : List Char) : List Char := l

/-- A TOTP back end accepting every 6-digit code (the repository-level
precheck still applies in front of it). -/
def totpT (_secret _code : List Char) : Bool := true

/-- A blank row: no password, no 2FA, no session. -/
def row0 : UserRow :=
  { hashed_password := [], password_changed := false, password_history := [],
    two_fa_enabled := false, two_fa_secret := [], backup_codes := [],
    last_auth_time := 0 }

/-- A valid password ("Abcdefg1", the spec's boundary example). -/
def pw1 : List Char := "Abcdefg1".toList

/-- A row whose current password is `pw1` and whose history is empty. -/
def rowC1 : UserRow := { row0 with hashed_password := hashL pw1 }

/-- A row whose history contains the hash of `pw1`. -/
def rowC1b : UserRow :=
  { row0 with hashed_password := hashL pw1, password_history := [hashL pw1] }

/-! ## C1 — reuse check consults only the history, not the current hash -/

/-- C1 counterexample: the claim says `changePassword` fails with
`ReusedPassword` whenever the new password matches (via `verify`) the
*current* hash; but for a principal whose current password is the valid
candidate "Abcdefg1" and whose history is empty, `change_password`
succeeds — the loop at `password_manager.py` lines 146-148 ranges only
over `history[-8:]` and never verifies against `current_hashed`. -/
theorem c1_counterexample :
    (validate_password pw1).1 = true
    ∧ verifyL pw1 rowC1.hashed_password = true
    ∧ rowC1.password_history = []
    ∧ (change_password hashL verifyL rowC1 pw1).1.1 = true := by
  decide

/-- C1 (amended): for every candidate that passes validation,
`change_password` fails with the `ReusedPassword` message exactly when
the candidate verifies against one of the last 8 *history* hashes; the
current hash is not consulted (it only blocks reuse after a later
change pushes it into the history). -/
theorem c1_reuse_checks_history_only (hashF : List Char → List Char)
    (verifyF : List Char → List Char → Bool) (row : UserRow)
    (new_password : List Char)
    (hval : (validate_password new_password).1 = true) :
    (change_password hashF verifyF row new_password).1 = (false, reusedMsg) ↔
      (lastTake 8 row.password_history).any
        (fun old_hash => verifyF new_password old_hash) = true := by
  by_cases hany : (lastTake 8 row.password_history).any
      (fun old_hash => verifyF new_password old_hash) = true
  · simp [change_password, hval, hany]
  · simp [change_password, hval, hany, changeOkMsg, reusedMsg]

/-- C1 witness: on a row whose history holds the hash of `pw1`, the
amended equivalence holds with both sides true. -/
theorem c1_reuse_checks_history_only_witness :
    ((change_password hashL verifyL rowC1b pw1).1 = (false, reusedMsg) ↔
      (lastTake 8 rowC1b.password_history).any
        (fun old_hash => verifyL pw1 old_hash) = true) :=
  c1_reuse_checks_history_only hashL verifyL rowC1b pw1 (by decide)

/-! ## C2 — no-match result of `verify_backup_code` -/

/-- C2 counterexample: the claim says that on no match the second
component equals the input stored set; but `verify_backup_code` returns
`(False, None)` (`two_fa.py` line 129) — here on the empty stored set,
where no hash can match. -/
theorem c2_counterexample :
    hashId (normalizeBackupCode "ZZZZ-ZZZZ".toList) ∉ ([] : List (List Char))
    ∧ verify_backup_code hashId "ZZZZ-ZZZZ".toList []
        ≠ (false, some ([] : List (List Char))) := by
  decide

/-- C2 (amended): whenever the normalized code's hash is not in the
stored set, `verify_backup_code` returns `false` together with `none` —
no updated set is produced, so the caller's stored set is left as it
was (but the second component is `None`, not the input set). -/
theorem c2_no_match_returns_none (hashF : List Char → List Char)
    (code : List Char) (stored : List (List Char))
    (h : hashF (normalizeBackupCode code) ∉ stored) :
    verify_backup_code hashF code stored = (false, none) := by
  simp [verify_backup_code, h]

/-- C2 witness: the no-match branch evaluated on the empty stored set. -/
theorem c2_no_match_returns_none_witness :
    verify_backup_code hashId "ZZZZ-ZZZZ".toList [] = (false, none) :=
  c2_no_match_returns_none hashId "ZZZZ-ZZZZ".toList [] (by decide)

/-! ## C3 — `is_session_active` has no `last_auth_time != 0` test -/

/-- C3 counterexample: the claim's equivalence (`active ↔ now - last <
120 ∧ last ≠ 0`) fails at `last_auth_time = 0`, `now = 50`:
`is_session_active` (`session_manager.py` line 50) returns
`(now - last) < 120 = true` with no nonzero test. -/
theorem c3_counterexample :
    ¬ (is_session_active (some row0) 50 = true ↔
        (50 - row0.last_auth_time < SESSION_TIMEOUT ∧
          row0.last_auth_time ≠ 0)) := by
  decide

/-- C3 (amended): `is_session_active` is `now - last_auth_time < 120`
with no `last_auth_time != 0` conjunct; consequently, after
`invalidate_session` (which sets `last_auth_time = 0`) the session
reads inactive exactly for `now ≥ 120` — every realistic wall-clock
value, but not literally "regardless of now". -/
theorem c3_active_iff_within_timeout (row : UserRow) (now : Int) :
    (is_session_active (some row) now = true ↔
      now - row.last_auth_time < SESSION_TIMEOUT)
    ∧ (SESSION_TIMEOUT ≤ now →
        is_session_active (some (invalidate_session row)) now = false) := by
  constructor
  · simp [is_session_active]
  · intro h
    simp only [is_session_active, invalidate_session]
    simp only [decide_eq_false_iff_not, not_lt]
    omega

/-- C3 witness: after invalidation the session is inactive at
`now = 500`. -/
theorem c3_active_iff_within_timeout_witness :
    is_session_active (some (invalidate_session row0)) 500 = false :=
  (c3_active_iff_within_timeout row0 500).2 (by decide)

/-! ## C4 — a single trailing newline passes validation -/

/-- C4: `validate_password` accepts `"Abcdefg1\n"` even though the
newline is whitespace and lies outside the allowed character class:
the explicit whitespace test (`password_manager.py` line 43) checks
only the space character, and in the allow-list check
`re.match(r"^[...]+$", ...)` (line 57) Python's `$` also matches just
before a single trailing newline.  Every other whitespace placement is
rejected by the allow-list check. -/
theorem c4_trailing_newline_accepted :
    validate_password ("Abcdefg1\n".toList) = (true, "")
    ∧ '\n' ∈ ("Abcdefg1\n".toList)
    ∧ allowedChar '\n' = false
    ∧ (validate_password ("Abcdefg1\t".toList)).1 = false
    ∧ (validate_password ("Abcd\nefg1".toList)).1 = false := by
  decide

/-! ## C8 — the history is capped at 8 entries -/

/-- `history[-8:]` has at most 8 elements. -/
theorem lastTake_length_le (n : Nat) (l : List α) : (lastTake n l).length ≤ n := by
  simp [lastTake]
  omega

/-- A row with a full history of 8 distinct dummy hashes and a current
hash, for exercising FIFO eviction. -/
def row8 : UserRow :=
  { row0 with
      hashed_password := ['q'],
      password_history := [['a'], ['b'], ['c'], ['d'], ['e'], ['f'], ['g'], ['h']] }

/-- C8: `password_history.length ≤ 8` is established by
default-password seeding (`set_default_password` resets the history)
and preserved by every `change_password` call; when the history already
holds 8 entries and the previous current hash is pushed, the oldest
entry is evicted (FIFO). -/
theorem c8_history_capped_at_eight (hashF : List Char → List Char)
    (verifyF : List Char → List Char → Bool) (role : String)
    (row : UserRow) (new_password : List Char)
    (hinv : row.password_history.length ≤ 8) :
    (set_default_password hashF role row).password_history.length ≤ 8
    ∧ ((change_password hashF verifyF row new_password).2).password_history.length ≤ 8
    ∧ (row.password_history.length = 8 → ¬row.hashed_password.isEmpty →
        (change_password hashF verifyF row new_password).1.1 = true →
        ((change_password hashF verifyF row new_password).2).password_history
          = row.password_history.drop 1 ++ [row.hashed_password]) := by
  refine ⟨?_, ?_, ?_⟩
  · unfold set_default_password
    split
    · exact hinv
    · simp
  · by_cases hv : (validate_password new_password).1 = true
    · by_cases hany : (lastTake 8 row.password_history).any
          (fun old_hash => verifyF new_password old_hash) = true
      · simp [change_password, hv, hany, hinv]
      · simp [change_password, hv, hany]
        exact lastTake_length_le 8 _
    · simp [change_password, hv, hinv]
  · intro h8 hne hsucc
    by_cases hv : (validate_password new_password).1 = true
    · by_cases hany : (lastTake 8 row.password_history).any
          (fun old_hash => verifyF new_password old_hash) = true
      · simp [change_password, hv, hany] at hsucc
      · simp [change_password, hv, hany, hne]
        have hlen9 : (row.password_history ++ [row.hashed_password]).length - 8 = 1 := by
          simp [h8]
        rw [lastTake, hlen9, List.drop_append_eq_append_drop]
        simp [h8]
    · simp [change_password, hv] at hsucc

/-- C8 witness: on a row with a full 8-entry history, a successful
change evicts the oldest entry and appends the previous current hash. -/
theorem c8_history_capped_at_eight_witness :
    ((change_password hashL verifyL row8 pw1).2).password_history
      = row8.password_history.drop 1 ++ [row8.hashed_password] :=
  (c8_history_capped_at_eight hashL verifyL "admin" row8 pw1 (by decide)).2.2
    (by decide) (by decide) (by decide)

/-! ## C9 — `require_authentication` gate -/

/-- C9: `require_authentication` returns `true` with no prompt and no
state change exactly when `force` is off and the session is active;
otherwise — and always when `force = true`, whatever the session
timestamp says — it enters `AwaitingPassword`, emits the password
prompt, and returns `false`. -/
theorem c9_require_authentication_gate (row : Option UserRow) (now : Int)
    (force : Bool) (fsm : FsmState) :
    (((require_authentication row now force fsm).1 = true ∧
        (require_authentication row now force fsm).2.2 = 0) ↔
      (force = false ∧ is_session_active row now = true))
    ∧ ((require_authentication row now force fsm).1 = true →
        (require_authentication row now force fsm).2.1 = fsm)
    ∧ ((require_authentication row now force fsm).1 = false →
        (require_authentication row now force fsm).2.1 = FsmState.authWaitingPassword ∧
        (require_authentication row now force fsm).2.2 = 1)
    ∧ (force = true → (require_authentication row now force fsm).1 = false) := by
  cases force <;> by_cases h : is_session_active row now = true <;>
    simp [require_authentication, h]

/-- C9 witness: with `force = true` and a fresh (active) session
timestamp, authentication is still demanded. -/
theorem c9_require_authentication_gate_witness :
    is_session_active (some (authenticate_user 50 row0)) 50 = true
    ∧ (require_authentication (some (authenticate_user 50 row0)) 50 true
        FsmState.idle).1 = false :=
  ⟨by decide,
   (c9_require_authentication_gate (some (authenticate_user 50 row0)) 50 true
      FsmState.idle).2.2.2 rfl⟩

/-! ## C5 — 2FA enrollment persists only on a verified initial code -/

/-- C5: entering the enrollment state displays the secret but writes
nothing to the stored record; cancellation and a failed initial code
leave the record (and, for a failed code, the state) unchanged; only a
successful `verify_totp_code` call commits `two_fa_enabled = true`, the
displayed secret, and the 10 freshly generated hashed backup codes. -/
theorem c5_enrollment_persists_only_on_success
    (totpVerify : List Char → List Char → Bool) (hashF : List Char → List Char)
    (isPrivileged : Bool) (row : UserRow) (secret : List Char)
    (fsm : FsmState) (text : List Char) (raws : List (List Char))
    (hsec : ¬secret.isEmpty) (hraws : raws.length = 10) :
    (msg_enable_2fa_start isPrivileged row secret fsm).1 = row
    ∧ (row.two_fa_enabled = false → isPrivileged = true →
        msg_enable_2fa_start isPrivileged row secret fsm
          = (row, .enable2faWaitingInitialCode secret, some secret))
    ∧ (process_enable_2fa_code totpVerify hashF row secret cancelText raws
        = (row, .idle, none))
    ∧ (text ≠ cancelText →
        verify_totp_code totpVerify secret (stripCode text) = false →
        process_enable_2fa_code totpVerify hashF row secret text raws
          = (row, .enable2faWaitingInitialCode secret, none))
    ∧ (text ≠ cancelText →
        verify_totp_code totpVerify secret (stripCode text) = true →
        (process_enable_2fa_code totpVerify hashF row secret text raws).1
            = { row with
                  two_fa_enabled := true, two_fa_secret := secret,
                  backup_codes := store_backup_codes hashF (generate_backup_codes raws),
                  last_auth_time := 0 }
          ∧ ((process_enable_2fa_code totpVerify hashF row secret text raws).1).backup_codes.length = 10) := by
  refine ⟨?_, ?_, ?_, ?_, ?_⟩
  · cases isPrivileged <;> by_cases he : row.two_fa_enabled = true <;>
      simp [msg_enable_2fa_start, he]
  · intro he hp
    simp [msg_enable_2fa_start, he, hp]
  · simp [process_enable_2fa_code]
  · intro hc hbad
    simp [process_enable_2fa_code, hc, hsec, hbad]
  · intro hc hok
    simp [process_enable_2fa_code, hc, hsec, hok, store_backup_codes,
      generate_backup_codes, hraws]

/-- A secret and a plain 6-digit code for the witnesses. -/
def secS : List Char := "SECRET22WORDS".toList

def txt6 : List Char := "123456".toList

/-- Ten distinct 8-character raw draws over the generator's alphabet. -/
def raws10d : List (List Char) :=
  [['A', 'A', 'A', 'A', 'A', 'A', 'A', 'A'], ['B', 'B', 'B', 'B', 'B', 'B', 'B', 'B'],
   ['C', 'C', 'C', 'C', 'C', 'C', 'C', 'C'], ['D', 'D', 'D', 'D', 'D', 'D', 'D', 'D'],
   ['E', 'E', 'E', 'E', 'E', 'E', 'E', 'E'], ['F', 'F', 'F', 'F', 'F', 'F', 'F', 'F'],
   ['G', 'G', 'G', 'G', 'G', 'G', 'G', 'G'], ['H', 'H', 'H', 'H', 'H', 'H', 'H', 'H'],
   ['I', 'I', 'I', 'I', 'I', 'I', 'I', 'I'], ['J', 'J', 'J', 'J', 'J', 'J', 'J', 'J']]

/-- C5 witness: a user with no 2FA submits the correct initial code and
the record is committed exactly as the theorem states. -/
theorem c5_enrollment_persists_only_on_success_witness :
    (process_enable_2fa_code totpT hashId row0 secS txt6 raws10d).1
        = { row0 with
              two_fa_enabled := true, two_fa_secret := secS,
              backup_codes := store_backup_codes hashId (generate_backup_codes raws10d),
              last_auth_time := 0 }
      ∧ ((process_enable_2fa_code totpT hashId row0 secS txt6 raws10d).1).backup_codes.length = 10 :=
  (c5_enrollment_persists_only_on_success totpT hashId true row0 secS
      FsmState.idle txt6 raws10d (by decide) (by decide)).2.2.2.2
    (by decide) (by decide)

/-! ## C10 — enabling or disabling 2FA zeroes `last_auth_time` -/

/-- C10: the successful-enrollment update and the successful-disable
update each set `last_auth_time = 0` in the same stored-record write,
and a row with `last_auth_time = 0` reads inactive at every clock value
from `SESSION_TIMEOUT` on — the principal must re-authenticate. -/
theorem c10_twofa_toggle_ends_session
    (totpVerify : List Char → List Char → Bool) (hashF : List Char → List Char)
    (row : UserRow) (secret text : List Char) (raws : List (List Char))
    (hc : text ≠ cancelText) :
    (¬secret.isEmpty → verify_totp_code totpVerify secret (stripCode text) = true →
        (process_enable_2fa_code totpVerify hashF row secret text raws).1.last_auth_time = 0)
    ∧ ((process_disable_2fa_code totpVerify hashF row text).2 = FsmState.idle →
        (process_disable_2fa_code totpVerify hashF row text).1.last_auth_time = 0)
    ∧ (∀ r : UserRow, r.last_auth_time = 0 → ∀ t : Int, SESSION_TIMEOUT ≤ t →
        is_session_active (some r) t = false) := by
  refine ⟨?_, ?_, ?_⟩
  · intro hsec hok
    simp [process_enable_2fa_code, hc, hsec, hok]
  · by_cases ht : verify_totp_code totpVerify row.two_fa_secret (pyStrip text) = true
    · simp [process_disable_2fa_code, hc, ht]
    · by_cases hb : (verify_backup_code hashF (pyStrip text) row.backup_codes).1 = true
      · simp [process_disable_2fa_code, hc, ht, hb]
      · intro hdone
        simp [process_disable_2fa_code, hc, ht, hb] at hdone
  · intro r h t hts
    simp only [is_session_active, h, decide_eq_false_iff_not, not_lt]
    omega

/-- A row with 2FA enabled, for the disable witness. -/
def rowD : UserRow :=
  { row0 with two_fa_enabled := true, two_fa_secret := secS, last_auth_time := 40 }

/-- C10 witness: a successful disable (correct 6-digit code) leaves
`last_auth_time = 0` and the session reads inactive at `now = 200`. -/
theorem c10_twofa_toggle_ends_session_witness :
    (process_disable_2fa_code totpT hashId rowD txt6).1.last_auth_time = 0
    ∧ is_session_active (some (process_disable_2fa_code totpT hashId rowD txt6).1) 200 = false :=
  ⟨(c10_twofa_toggle_ends_session totpT hashId rowD secS txt6 raws10d (by decide)).2.1
      (by decide),
   (c10_twofa_toggle_ends_session totpT hashId rowD secS txt6 raws10d (by decide)).2.2
      (process_disable_2fa_code totpT hashId rowD txt6).1 (by decide) 200 (by decide)⟩

/-! ## C6 — the change-password 2FA step breaks on backup codes -/

/-- A row with 2FA enabled whose stored backup codes contain the hash
of "ABCD-EFGH". -/
def rowC6 : UserRow :=
  { row0 with
      two_fa_enabled := true, two_fa_secret := secS,
      backup_codes := [hashId "ABCD-EFGH".toList], last_auth_time := 40 }

/-- C6: in the Change-Password Orchestrator's 2FA step, submitting a
backup code that is genuinely in the stored set is *not* accepted and
the handler raises: after the TOTP precheck fails (a backup code is not
6 digits), `auth.py` line 619 executes
`await verify_backup_code(user_id, code)` — swapped arguments on a
synchronous function — so an exception escapes instead of the password
change being applied.  Even a TOTP back end accepting every 6-digit
code cannot rescue the call.  The same code verifies correctly through
`verify_backup_code` itself, confirming the input was valid. -/
theorem c6_backup_code_step_raises :
    process_password_change_2fa totpT rowC6 pw1 "ABCD-EFGH".toList hashId verifyL
      = Except.error PyErr.uncaughtException
    ∧ hashId (normalizeBackupCode "ABCD-EFGH".toList) ∈ rowC6.backup_codes
    ∧ (verify_backup_code hashId "ABCD-EFGH".toList rowC6.backup_codes).1 = true := by
  refine ⟨rfl, ?_, ?_⟩ <;> decide

/-! ## C7 — backup codes are single-use -/

/-- Mapping a function that fixes every element of a list is the
identity on it. -/
theorem map_eq_self_of_fixes {f : α → α} {l : List α}
    (h : ∀ x ∈ l, f x = x) : l.map f = l := by
  induction l with
  | nil => rfl
  | cons a t ih =>
    simp only [List.map_cons, h a (List.mem_cons_self a t)]
    rw [ih (fun x hx => h x (List.mem_cons_of_mem a hx))]

/-- Every generator-alphabet character is unaffected by the
normalization steps of `verify_backup_code`: it is not a space, not a
dash, and is its own uppercase. -/
theorem backup_alphabet_chars :
    ∀ ch ∈ BACKUP_ALPHABET, ch ≠ ' ' ∧ ch ≠ '-' ∧ pyUpper ch = ch := by
  decide

/-- A code in the generator's output format (`XXXX-XXXX` over
`BACKUP_ALPHABET`) is a fixed point of the input normalization of
`verify_backup_code`. -/
theorem normalizeBackupCode_format {r : List Char} (hlen : r.length = 8)
    (halpha : ∀ ch ∈ r, ch ∈ BACKUP_ALPHABET) :
    normalizeBackupCode (formatBackupCode r) = formatBackupCode r := by
  have hr : ∀ ch ∈ r, ch ≠ ' ' ∧ ch ≠ '-' ∧ pyUpper ch = ch :=
    fun ch hch => backup_alphabet_chars ch (halpha ch hch)
  have htake : ∀ ch ∈ r.take 4, ch ∈ r := fun ch hch => List.take_subset 4 r hch
  have hdrop : ∀ ch ∈ r.drop 4, ch ∈ r := fun ch hch => List.drop_subset 4 r hch
  have h1 : (formatBackupCode r).filter (fun c => c ≠ ' ') = formatBackupCode r := by
    rw [List.filter_eq_self]
    intro a ha
    simp only [formatBackupCode, List.mem_append, List.mem_cons] at ha
    rcases ha with h | h | h
    · simp [(hr a (htake a h)).1]
    · simp [h]
    · simp [(hr a (hdrop a h)).1]
  have h2 : (formatBackupCode r).filter (fun c => c ≠ '-') = r := by
    simp only [formatBackupCode, List.filter_append, List.filter_cons]
    have hdash : (decide ('-' ≠ '-')) = false := by decide
    rw [hdash]
    have ht : (r.take 4).filter (fun c => c ≠ '-') = r.take 4 := by
      rw [List.filter_eq_self]
      intro a ha
      simp [(hr a (htake a ha)).2.1]
    have hd : (r.drop 4).filter (fun c => c ≠ '-') = r.drop 4 := by
      rw [List.filter_eq_self]
      intro a ha
      simp [(hr a (hdrop a ha)).2.1]
    simp only [Bool.false_eq_true, if_false, ht, hd, List.take_append_drop]
  have h3 : r.map pyUpper = r :=
    map_eq_self_of_fixes (fun x hx => (hr x hx).2.2)
  unfold normalizeBackupCode
  rw [h1, h2, h3]
  simp [hlen, formatBackupCode]

/-- C7: from a stored set built out of generated codes with pairwise
distinct hashes, verifying one of the codes succeeds and removes
exactly its hash (9 of 10 remain); verifying the same code again
against the updated set fails. -/
theorem c7_backup_codes_single_use (hashF : List Char → List Char)
    (raws : List (List Char)) (c : List Char)
    (hlen : raws.length = 10)
    (hform : ∀ r ∈ raws, r.length = 8 ∧ ∀ ch ∈ r, ch ∈ BACKUP_ALPHABET)
    (hc : c ∈ generate_backup_codes raws)
    (hnodup : (store_backup_codes hashF (generate_backup_codes raws)).Nodup) :
    ∃ s', verify_backup_code hashF c (store_backup_codes hashF (generate_backup_codes raws))
            = (true, some s')
      ∧ s'.length = 9
      ∧ verify_backup_code hashF c s' = (false, none) := by
  obtain ⟨r, hr, hcr⟩ := List.mem_map.mp hc
  have hfix : normalizeBackupCode c = c := by
    rw [← hcr]
    exact normalizeBackupCode_format (hform r hr).1 (hform r hr).2
  have hmem : hashF c ∈ store_backup_codes hashF (generate_backup_codes raws) :=
    List.mem_map_of_mem hashF hc
  have hstoredlen : (store_backup_codes hashF (generate_backup_codes raws)).length = 10 := by
    simp [store_backup_codes, generate_backup_codes, hlen]
  refine ⟨(store_backup_codes hashF (generate_backup_codes raws)).erase (hashF c), ?_, ?_, ?_⟩
  · simp [verify_backup_code, hfix, hmem]
  · rw [List.length_erase_of_mem hmem, hstoredlen]
  · have hnot : hashF c ∉ (store_backup_codes hashF (generate_backup_codes raws)).erase (hashF c) := by
      intro habs
      exact ((List.Nodup.mem_erase_iff hnodup).mp habs).1 rfl
    simp [verify_backup_code, hfix, hnot]

/-- C7 witness: ten distinct generated codes; "AAAA-AAAA" verifies
once, leaving 9 hashes, and fails on the second attempt. -/
theorem c7_backup_codes_single_use_witness :
    ∃ s', verify_backup_code hashId "AAAA-AAAA".toList
            (store_backup_codes hashId (generate_backup_codes raws10d))
            = (true, some s')
      ∧ s'.length = 9
      ∧ verify_backup_code hashId "AAAA-AAAA".toList s' = (false, none) :=
  c7_backup_codes_single_use hashId raws10d "AAAA-AAAA".toList
    (by decide) (by decide) (by decide) (by decide)
